import Mathlib

/-!
Verification of the NBA props dashboard core logic (grouping, stake math,
filter/sort pipeline, favorites) against its design specification.

The JavaScript source is shallowly embedded in Lean:
* JS numbers are modelled by the rationals `ℚ` (American odds values, which the
  source treats as signed integers, are modelled by `Int`);
* JS `null` quoted-odds values are modelled by `Option Int` with `none`;
* JS arrays are modelled by `List`; JS objects used as insertion-ordered maps
  are modelled by association lists `List (String × _)`;
* `Array.prototype.sort`, which is required to be stable by the ECMAScript
  specification, is modelled by `List.mergeSort`.
-/

namespace Dashboard

/-! ## Odds Converter (source: calculateStakes, src/unnamed/part_000 lines 302-312)

The decimal-multiplier expressions are inlined in the source body of
`calculateStakes`; they are factored out here under the name the design
specification uses.  In JS, `decimalMultiplier 0` evaluates `100 / Math.abs(0)`
to `Infinity`; in the `ℚ` model the division by zero yields `0`.  Either way
the non-positive branch is taken and a value is produced. -/
def decimalMultiplier (american : Int) : ℚ :=
  if 0 < american then (american : ℚ) / 100 + 1 else 100 / |(american : ℚ)| + 1

structure StakeResult where
  stakeOver : ℚ
  stakeUnder : ℚ
  profit : ℚ
deriving Repr, DecidableEq

/-- Source: `calculateStakes(overOdds, underOdds, totalStake = 100)`.
The JS guard is `overOdds === null || underOdds === null`; a `null` odds value
is modelled as `none`. -/
def calculateStakes (overOdds underOdds : Option Int) (totalStake : ℚ) :
    StakeResult :=
  match overOdds, underOdds with
  | some o, some u =>
      let decOver := decimalMultiplier o
      let decUnder := decimalMultiplier u
      let stakeOver := totalStake / (1 + decOver / decUnder)
      { stakeOver := stakeOver
        stakeUnder := totalStake - stakeOver
        profit := stakeOver * decOver - totalStake }
  | _, _ => { stakeOver := 0, stakeUnder := 0, profit := 0 }

theorem decimalMultiplier_pos (a : Int) : 0 < decimalMultiplier a := by
  unfold decimalMultiplier
  split
  · rename_i h
    have ha : (0 : ℚ) < (a : ℚ) := by exact_mod_cast h
    have : (0 : ℚ) < (a : ℚ) / 100 := by positivity
    linarith
  · have : (0 : ℚ) ≤ 100 / |(a : ℚ)| := div_nonneg (by norm_num) (abs_nonneg _)
    linarith

/-- The algebraic heart of the balanced-stake property. -/
theorem stake_balance_algebra (dO dU S : ℚ) (h1 : 0 < dO) (h2 : 0 < dU) :
    S / (1 + dO / dU) * dO = (S - S / (1 + dO / dU)) * dU := by
  have hdU : dU ≠ 0 := ne_of_gt h2
  have hsum : dU + dO ≠ 0 := ne_of_gt (by linarith)
  have hrw : 1 + dO / dU = (dU + dO) / dU := by field_simp
  rw [hrw]
  field_simp
  ring

/-! ## Quote data model and Grouping Engine (source lines 171-191)

A raw quote as ingested from the source; `null` American odds are `none`.
JS objects used as keyed maps (`grouped`, `books`) are modelled as
association lists in insertion order: writing to an existing key overwrites
in place, writing a fresh key appends, and `Object.values` is `map Prod.snd`
of the association list — exactly the ECMAScript ordinary-object key order
for non-index string keys. -/
structure Quote where
  player : String
  prop_type : String
  game : String
  team : String
  sportsbook : String
  line : ℚ
  over_odds : Option Int
  under_odds : Option Int
deriving Repr, DecidableEq

structure BookEntry where
  line : ℚ
  overOdds : Option Int
  underOdds : Option Int
deriving Repr, DecidableEq

structure GroupedProp where
  player : String
  propType : String
  game : String
  team : String
  books : List (String × BookEntry)
deriving Repr, DecidableEq

/-- The grouping key: the source's template literal joining `prop.player` and
`prop.prop_type` with a hyphen. -/
def qkey (q : Quote) : String := q.player ++ "-" ++ q.prop_type

def gkey (g : GroupedProp) : String := g.player ++ "-" ++ g.propType

/-- JS object property write `books[k] = e`: overwrite an existing key in
place, otherwise append. -/
def setBook (books : List (String × BookEntry)) (k : String) (e : BookEntry) :
    List (String × BookEntry) :=
  if books.any (fun p => p.1 == k) then
    books.map (fun p => if p.1 == k then (p.1, e) else p)
  else books ++ [(k, e)]

/-- The `{line, overOdds, underOdds}` record written into `books`. -/
def mkEntry (q : Quote) : BookEntry :=
  { line := q.line, overOdds := q.over_odds, underOdds := q.under_odds }

/-- JS `String.prototype.toLowerCase` modelled character-wise (the book
names and player names involved are ASCII). -/
def jsToLowerCase (s : String) : String := ⟨s.data.map Char.toLower⟩

/-- Source: `prop.sportsbook.toLowerCase()`. -/
def bookKey (q : Quote) : String := jsToLowerCase q.sportsbook

/-- The fresh group created when a key is first seen: seeded with
player/propType/game/team from that quote, with an empty `books` object. -/
def mkGroup (q : Quote) : GroupedProp :=
  { player := q.player, propType := q.prop_type, game := q.game, team := q.team
    books := [] }

/-- `grouped[key].books[prop.sportsbook.toLowerCase()] = {...}`. -/
def addBook (g : GroupedProp) (q : Quote) : GroupedProp :=
  { g with books := setBook g.books (bookKey q) (mkEntry q) }

/-- One iteration of the source's `allProps.forEach(prop => ...)`: create the
group if the key is unseen, then always write the current quote's book entry. -/
def stepGroup (acc : List (String × GroupedProp)) (q : Quote) :
    List (String × GroupedProp) :=
  let acc1 := if acc.any (fun p => p.1 == qkey q) then acc
              else acc ++ [(qkey q, mkGroup q)]
  acc1.map (fun p => if p.1 == qkey q then (p.1, addBook p.2 q) else p)

/-- Source `groupedProps` memo: fold the quotes into the keyed object and take
`Object.values`. -/
def groupedProps (allProps : List Quote) : List GroupedProp :=
  (allProps.foldl stepGroup []).map Prod.snd

/-- JS optional access `prop.books[k]` on the association-list model. -/
def lookupBook (g : GroupedProp) (k : String) : Option BookEntry :=
  (g.books.find? (fun p => p.1 == k)).map Prod.snd

/-- Source (All Props view, lines 882):
`prop.books.draftkings && prop.books.fanduel`. -/
def hasBothBooks (g : GroupedProp) : Bool :=
  (lookupBook g "draftkings").isSome && (lookupBook g "fanduel").isSome

/-- Source (All Props view, line 885):
`hasBothBooks && dkLine !== fdLine`. -/
def lineMismatch (g : GroupedProp) : Bool :=
  match lookupBook g "draftkings", lookupBook g "fanduel" with
  | some d, some f => decide (d.line ≠ f.line)
  | _, _ => false

/-! Specification-side description of grouping, used to state claim C3 as a
refinement.  It follows the spec's words: one `GroupedProp` per distinct
(player, propType) key, in first-seen order; each seeded from the first quote
bearing its key; the book map built from all quotes with that key in turn,
later writes overwriting earlier ones for the same book. -/

/-- The distinct keys of a list in first-seen order. -/
def firstSeen (keys : List String) : List String :=
  keys.foldl (fun acc k => if k ∈ acc then acc else acc ++ [k]) []

/-- The group the spec prescribes for key `k`: seeded from the first quote
with key `k`, with every quote bearing key `k` writing its book entry in
input order. -/
def groupFor (k : String) (qs : List Quote) : Option GroupedProp :=
  match qs.filter (fun q => qkey q == k) with
  | [] => none
  | q :: rest => some ((q :: rest).foldl addBook (mkGroup q))

/-- The spec's description of `group`: one group per distinct key, in
first-seen order. -/
def groupSpec (qs : List Quote) : List GroupedProp :=
  (firstSeen (qs.map qkey)).filterMap (fun k => groupFor k qs)

/-- The keyed object built by the grouping fold, described specification-side:
for every first-seen key, the group the spec prescribes, paired with its key. -/
def specAssoc (qs : List Quote) : List (String × GroupedProp) :=
  (firstSeen (qs.map qkey)).filterMap
    (fun k => (groupFor k qs).map (fun g => (k, g)))

/-! ## Favorites Index (source lines 157-168) -/

def favKey (player propType : String) : String := player ++ "-" ++ propType

/-- Source: `toggleFavorite(player, propType)`; `favorites` is the JS array of
composite key strings, updated functionally (`filter` / spread-append). -/
def toggleFavorite (favorites : List String) (player propType : String) :
    List String :=
  let key := favKey player propType
  if favorites.contains key then favorites.filter (fun f => f != key)
  else favorites ++ [key]

/-- Source: `isFavorite(player, propType)`. -/
def isFavorite (favorites : List String) (player propType : String) : Bool :=
  favorites.contains (favKey player propType)

/-! ## Opportunity records (data model of the five externally supplied
collections, from the source's field accesses and spec section 3).  Numeric
ranking fields are `Option ℚ` because an individual JSON record may lack
them; American odds fields are `Option Int`. -/

structure AllOddsSnapshot where
  dk_over : Option Int
  dk_under : Option Int
  fd_over : Option Int
  fd_under : Option Int
deriving Repr, DecidableEq

structure ArbRecord where
  player : String
  prop_type : String
  game : String
  team : String
  line : ℚ
  bet_over : String
  bet_under : String
  over_odds : Option Int
  under_odds : Option Int
  profit_percent : Option ℚ
deriving Repr, DecidableEq

structure ValueRecord where
  player : String
  prop_type : String
  game : String
  team : String
  line : ℚ
  recommended_side : String
  best_book : String
  best_odds : Option Int
  edge_percent : Option ℚ
  all_odds : Option AllOddsSnapshot
  reasoning : String
deriving Repr, DecidableEq

structure ConsensusRecord where
  player : String
  prop_type : String
  game : String
  line : ℚ
  side : String
  best_book : String
  best_odds : Option Int
  other_odds : Option Int
  odds_difference : Option ℚ
  reasoning : String
deriving Repr, DecidableEq

structure DiscRecord where
  player : String
  prop_type : String
  game : String
  dk_line : ℚ
  fd_line : ℚ
  dk_over : Option Int
  dk_under : Option Int
  fd_over : Option Int
  fd_under : Option Int
  line_difference : Option ℚ
deriving Repr, DecidableEq

structure BestOddsRecord where
  player : String
  prop_type : String
  game : String
  line : ℚ
  side : String
  best_book : String
  best_odds : Option Int
  other_odds : Option Int
  odds_difference : Option ℚ
deriving Repr, DecidableEq

/-! ## Filter/Sort Pipeline (source `filteredData`, lines 194-282)

The source is one heterogeneous function switching on `activeTab`; since the
tab statically determines the record type and the sort comparator, it is
embedded as one function per tab, each mirroring the source's filter chain
verbatim for that tab. -/

/-- The filter criteria state feeding the pipeline. -/
structure Criteria where
  searchQuery : String
  selectedPropType : String
  selectedBook : String
  sortBy : String
  showFavorites : Bool
deriving Repr, DecidableEq

/-- JS `String.prototype.includes`: substring containment on the character
list, `leadMatch` being prefix-matching at the current position. -/
def leadMatch : List Char → List Char → Bool
  | [], _ => true
  | _ :: _, [] => false
  | a :: as, b :: bs => a == b && leadMatch as bs

def subMatch (needle : List Char) : List Char → Bool
  | [] => leadMatch needle []
  | c :: t => leadMatch needle (c :: t) || subMatch needle t

def jsIncludes (s pat : String) : Bool := subMatch pat.toList s.toList

/-- The `le` relation realised by the JS stable sort under the comparator
`(a, b) => b.field - a.field` (numeric, descending): `le a b` holds iff the
comparator value is `<= 0`.  When either field is absent the JS subtraction
yields `NaN`, which the ECMAScript `SortCompare` operation maps to `+0`, i.e.
a tie; hence `true` in that case. -/
def numDescLe (x y : Option ℚ) : Bool :=
  match x, y with
  | some px, some py => decide (py ≤ px)
  | _, _ => true

/-- The value tab's comparator defaults a missing edge to zero:
`(b.edge_percent || 0) - (a.edge_percent || 0)`. -/
def numDescLeD (x y : Option ℚ) : Bool := decide (y.getD 0 ≤ x.getD 0)

/-- Arbitrage sort: by `profit_percent` descending when sorting by value,
else ascending by player (`localeCompare` modelled as the string order). -/
def arbSortLe (sortBy : String) (a b : ArbRecord) : Bool :=
  if sortBy == "profit" then numDescLe a.profit_percent b.profit_percent
  else decide (a.player ≤ b.player)

def valueSortLe (sortBy : String) (a b : ValueRecord) : Bool :=
  if sortBy == "profit" then numDescLeD a.edge_percent b.edge_percent
  else decide (a.player ≤ b.player)

def consensusSortLe (sortBy : String) (a b : ConsensusRecord) : Bool :=
  if sortBy == "profit" then numDescLe a.odds_difference b.odds_difference
  else decide (a.player ≤ b.player)

def bestOddsSortLe (sortBy : String) (a b : BestOddsRecord) : Bool :=
  if sortBy == "profit" then numDescLe a.odds_difference b.odds_difference
  else decide (a.player ≤ b.player)

def discSortLe (sortBy : String) (a b : DiscRecord) : Bool :=
  if sortBy == "profit" then numDescLe a.line_difference b.line_difference
  else decide (a.player ≤ b.player)

/-- Filter chain for the All Props tab (search, prop type, favorites; the
sportsbook filter step tests membership of the tab in
value/consensus/best-odds and is skipped here; the tab has no sort branch). -/
def allFilterPhase (crit : Criteria) (favorites : List String)
    (data0 : List GroupedProp) : List GroupedProp :=
  let data := data0
  let data := if crit.searchQuery != "" then
      data.filter (fun item => jsIncludes (jsToLowerCase item.player) (jsToLowerCase crit.searchQuery))
    else data
  let data := if crit.selectedPropType != "all" then
      data.filter (fun item => item.propType == crit.selectedPropType)
    else data
  let data := if crit.showFavorites then
      data.filter (fun item => isFavorite favorites item.player item.propType)
    else data
  data

/-- Pipeline for the All Props tab: no sort branch exists for it. -/
def filteredDataAll (crit : Criteria) (favorites : List String)
    (groupedProps : List GroupedProp) : List GroupedProp :=
  allFilterPhase crit favorites groupedProps

def arbFilterPhase (crit : Criteria) (favorites : List String)
    (data0 : List ArbRecord) : List ArbRecord :=
  let data := data0
  let data := if crit.searchQuery != "" then
      data.filter (fun item => jsIncludes (jsToLowerCase item.player) (jsToLowerCase crit.searchQuery))
    else data
  let data := if crit.selectedPropType != "all" then
      data.filter (fun item => item.prop_type == crit.selectedPropType)
    else data
  let data := if crit.showFavorites then
      data.filter (fun item => isFavorite favorites item.player item.prop_type)
    else data
  data

/-- Pipeline for the arbitrage tab; the final step is the copied stable sort
`[...data].sort(...)`. -/
def filteredDataArb (crit : Criteria) (favorites : List String)
    (arbitrage : List ArbRecord) : List ArbRecord :=
  (arbFilterPhase crit favorites arbitrage).mergeSort (arbSortLe crit.sortBy)

/-- Value tab filter chain: additionally the sportsbook filter applies on
this tab (`selectedBook !== 'all'` and the tab is in
value/consensus/best-odds). -/
def valueFilterPhase (crit : Criteria) (favorites : List String)
    (data0 : List ValueRecord) : List ValueRecord :=
  let data := data0
  let data := if crit.searchQuery != "" then
      data.filter (fun item => jsIncludes (jsToLowerCase item.player) (jsToLowerCase crit.searchQuery))
    else data
  let data := if crit.selectedPropType != "all" then
      data.filter (fun item => item.prop_type == crit.selectedPropType)
    else data
  let data := if crit.showFavorites then
      data.filter (fun item => isFavorite favorites item.player item.prop_type)
    else data
  let data := if crit.selectedBook != "all" then
      data.filter (fun item => item.best_book == crit.selectedBook)
    else data
  data

def filteredDataValue (crit : Criteria) (favorites : List String)
    (valueBets : List ValueRecord) : List ValueRecord :=
  (valueFilterPhase crit favorites valueBets).mergeSort (valueSortLe crit.sortBy)

def consensusFilterPhase (crit : Criteria) (favorites : List String)
    (data0 : List ConsensusRecord) : List ConsensusRecord :=
  let data := data0
  let data := if crit.searchQuery != "" then
      data.filter (fun item => jsIncludes (jsToLowerCase item.player) (jsToLowerCase crit.searchQuery))
    else data
  let data := if crit.selectedPropType != "all" then
      data.filter (fun item => item.prop_type == crit.selectedPropType)
    else data
  let data := if crit.showFavorites then
      data.filter (fun item => isFavorite favorites item.player item.prop_type)
    else data
  let data := if crit.selectedBook != "all" then
      data.filter (fun item => item.best_book == crit.selectedBook)
    else data
  data

def filteredDataConsensus (crit : Criteria) (favorites : List String)
    (consensusBets : List ConsensusRecord) : List ConsensusRecord :=
  (consensusFilterPhase crit favorites consensusBets).mergeSort
    (consensusSortLe crit.sortBy)

def discFilterPhase (crit : Criteria) (favorites : List String)
    (data0 : List DiscRecord) : List DiscRecord :=
  let data := data0
  let data := if crit.searchQuery != "" then
      data.filter (fun item => jsIncludes (jsToLowerCase item.player) (jsToLowerCase crit.searchQuery))
    else data
  let data := if crit.selectedPropType != "all" then
      data.filter (fun item => item.prop_type == crit.selectedPropType)
    else data
  let data := if crit.showFavorites then
      data.filter (fun item => isFavorite favorites item.player item.prop_type)
    else data
  data

def filteredDataDisc (crit : Criteria) (favorites : List String)
    (discrepancies : List DiscRecord) : List DiscRecord :=
  (discFilterPhase crit favorites discrepancies).mergeSort (discSortLe crit.sortBy)

def bestOddsFilterPhase (crit : Criteria) (favorites : List String)
    (data0 : List BestOddsRecord) : List BestOddsRecord :=
  let data := data0
  let data := if crit.searchQuery != "" then
      data.filter (fun item => jsIncludes (jsToLowerCase item.player) (jsToLowerCase crit.searchQuery))
    else data
  let data := if crit.selectedPropType != "all" then
      data.filter (fun item => item.prop_type == crit.selectedPropType)
    else data
  let data := if crit.showFavorites then
      data.filter (fun item => isFavorite favorites item.player item.prop_type)
    else data
  let data := if crit.selectedBook != "all" then
      data.filter (fun item => item.best_book == crit.selectedBook)
    else data
  data

def filteredDataBestOdds (crit : Criteria) (favorites : List String)
    (bestOdds : List BestOddsRecord) : List BestOddsRecord :=
  (bestOddsFilterPhase crit favorites bestOdds).mergeSort
    (bestOddsSortLe crit.sortBy)

/-- All Props view row filter (source lines 888-889): a row is rendered
unless the selected book is DraftKings/FanDuel and that book's entry is
absent for the prop. -/
def allPropsRowKeep (selectedBook : String) (prop : GroupedProp) : Bool :=
  !(selectedBook == "DraftKings" && (lookupBook prop "draftkings").isNone) &&
  !(selectedBook == "FanDuel" && (lookupBook prop "fanduel").isNone)

/-- The sequence of rows the All Props view actually displays: the pipeline
output further filtered by the view-level row filter. -/
def displayableAll (crit : Criteria) (favorites : List String)
    (groupedProps : List GroupedProp) : List GroupedProp :=
  (filteredDataAll crit favorites groupedProps).filter
    (allPropsRowKeep crit.selectedBook)

/-- The criteria with every filter at its neutral default and sorting by
player, as in claim C4. -/
def identityCriteria : Criteria :=
  { searchQuery := "", selectedPropType := "all", selectedBook := "all"
    sortBy := "player", showFavorites := false }

/-- The criteria with every filter neutral and the default value sort. -/
def profitCriteria : Criteria :=
  { searchQuery := "", selectedPropType := "all", selectedBook := "all"
    sortBy := "profit", showFavorites := false }

/-! ## Batch fetch (source `fetchAllData`, lines 80-122)

Each of the six requests either succeeds with a parsed payload or fails
(non-ok HTTP status or a JSON parse error), modelled as `Except String`.
The source awaits all six, throws if any response is not ok or fails to
parse, stores all six payloads on success, and in the catch branch sets the
error and resets all six collections to empty. -/

structure DashState where
  allProps : List Quote
  arbitrage : List ArbRecord
  discrepancies : List DiscRecord
  bestOdds : List BestOddsRecord
  valueBets : List ValueRecord
  consensusBets : List ConsensusRecord
  error : Option String
deriving Repr, DecidableEq

structure BatchResponses where
  propsRes : Except String (List Quote)
  arbRes : Except String (List ArbRecord)
  discRes : Except String (List DiscRecord)
  oddsRes : Except String (List BestOddsRecord)
  valueRes : Except String (List ValueRecord)
  consensusRes : Except String (List ConsensusRecord)

def isFail {α : Type} : Except String α → Bool
  | .error _ => true
  | .ok _ => false

def anyFailed (rs : BatchResponses) : Bool :=
  isFail rs.propsRes || isFail rs.arbRes || isFail rs.discRes ||
  isFail rs.oddsRes || isFail rs.valueRes || isFail rs.consensusRes

/-- The state transformation `fetchAllData` performs once the six responses
are in: all six collections set on success, all six emptied plus an error
recorded on any failure. -/
def fetchAllData (st : DashState) (rs : BatchResponses) : DashState :=
  match rs.propsRes, rs.arbRes, rs.discRes, rs.oddsRes, rs.valueRes, rs.consensusRes with
  | .ok propsData, .ok arbData, .ok discData, .ok oddsData, .ok valueData, .ok consensusData =>
      { st with allProps := propsData, arbitrage := arbData
                discrepancies := discData, bestOdds := oddsData
                valueBets := valueData, consensusBets := consensusData
                error := none }
  | _, _, _, _, _, _ =>
      { st with allProps := [], arbitrage := [], discrepancies := []
                bestOdds := [], valueBets := [], consensusBets := []
                error := some "Failed to fetch prop data." }

/-! ## Reference-level model of JS arrays for the frame property (claim C8)

JS arrays are mutable heap objects; `filter` and the spread copy allocate
fresh arrays while `sort` mutates its receiver in place.  A heap is the list
of allocated array cells, a reference an index into it. -/

structure JSHeap (α : Type) where
  cells : List (List α)

def JSHeap.read {α : Type} (h : JSHeap α) (r : Nat) : List α := h.cells.getD r []

def JSHeap.alloc {α : Type} (h : JSHeap α) (xs : List α) : JSHeap α × Nat :=
  ({ cells := h.cells ++ [xs] }, h.cells.length)

def JSHeap.write {α : Type} (h : JSHeap α) (r : Nat) (xs : List α) : JSHeap α :=
  { cells := h.cells.set r xs }

/-- `data.filter(p)` allocates a fresh array. -/
def jsFilterH {α : Type} (h : JSHeap α) (r : Nat) (p : α → Bool) : JSHeap α × Nat :=
  h.alloc ((h.read r).filter p)

/-- `[...data].sort(cmp)`: allocate a copy of the receiver, then sort that
copy in place (the ES2019+ stable sort, modelled by `mergeSort`). -/
def jsCopySortH {α : Type} (h : JSHeap α) (r : Nat) (le : α → α → Bool) :
    JSHeap α × Nat :=
  let hc := h.alloc (h.read r)
  (hc.1.write hc.2 ((hc.1.read hc.2).mergeSort le), hc.2)

/-- One conditional filter step of the source's chain, on heap state. -/
def stepFilterH {α : Type} (cond : Bool) (p : α → Bool) (s : JSHeap α × Nat) :
    JSHeap α × Nat :=
  if cond then jsFilterH s.1 s.2 p else s

def stepCopySortH {α : Type} (le : α → α → Bool) (s : JSHeap α × Nat) :
    JSHeap α × Nat :=
  jsCopySortH s.1 s.2 le

/-- Heap-level pipeline for the All Props tab: the three conditional filters
and no sort step. -/
def filteredDataAllH (crit : Criteria) (favorites : List String)
    (h : JSHeap GroupedProp) (base : Nat) : JSHeap GroupedProp × Nat :=
  stepFilterH crit.showFavorites
    (fun item => isFavorite favorites item.player item.propType)
    (stepFilterH (crit.selectedPropType != "all")
      (fun item => item.propType == crit.selectedPropType)
      (stepFilterH (crit.searchQuery != "")
        (fun item => jsIncludes (jsToLowerCase item.player) (jsToLowerCase crit.searchQuery))
        (h, base)))

def filteredDataArbH (crit : Criteria) (favorites : List String)
    (h : JSHeap ArbRecord) (base : Nat) : JSHeap ArbRecord × Nat :=
  stepCopySortH (arbSortLe crit.sortBy)
    (stepFilterH crit.showFavorites
      (fun item => isFavorite favorites item.player item.prop_type)
      (stepFilterH (crit.selectedPropType != "all")
        (fun item => item.prop_type == crit.selectedPropType)
        (stepFilterH (crit.searchQuery != "")
          (fun item => jsIncludes (jsToLowerCase item.player) (jsToLowerCase crit.searchQuery))
          (h, base))))

def filteredDataValueH (crit : Criteria) (favorites : List String)
    (h : JSHeap ValueRecord) (base : Nat) : JSHeap ValueRecord × Nat :=
  stepCopySortH (valueSortLe crit.sortBy)
    (stepFilterH (crit.selectedBook != "all")
      (fun item => item.best_book == crit.selectedBook)
      (stepFilterH crit.showFavorites
        (fun item => isFavorite favorites item.player item.prop_type)
        (stepFilterH (crit.selectedPropType != "all")
          (fun item => item.prop_type == crit.selectedPropType)
          (stepFilterH (crit.searchQuery != "")
            (fun item => jsIncludes (jsToLowerCase item.player) (jsToLowerCase crit.searchQuery))
            (h, base)))))

def filteredDataConsensusH (crit : Criteria) (favorites : List String)
    (h : JSHeap ConsensusRecord) (base : Nat) : JSHeap ConsensusRecord × Nat :=
  stepCopySortH (consensusSortLe crit.sortBy)
    (stepFilterH (crit.selectedBook != "all")
      (fun item => item.best_book == crit.selectedBook)
      (stepFilterH crit.showFavorites
        (fun item => isFavorite favorites item.player item.prop_type)
        (stepFilterH (crit.selectedPropType != "all")
          (fun item => item.prop_type == crit.selectedPropType)
          (stepFilterH (crit.searchQuery != "")
            (fun item => jsIncludes (jsToLowerCase item.player) (jsToLowerCase crit.searchQuery))
            (h, base)))))

def filteredDataDiscH (crit : Criteria) (favorites : List String)
    (h : JSHeap DiscRecord) (base : Nat) : JSHeap DiscRecord × Nat :=
  stepCopySortH (discSortLe crit.sortBy)
    (stepFilterH crit.showFavorites
      (fun item => isFavorite favorites item.player item.prop_type)
      (stepFilterH (crit.selectedPropType != "all")
        (fun item => item.prop_type == crit.selectedPropType)
        (stepFilterH (crit.searchQuery != "")
          (fun item => jsIncludes (jsToLowerCase item.player) (jsToLowerCase crit.searchQuery))
          (h, base))))

def filteredDataBestOddsH (crit : Criteria) (favorites : List String)
    (h : JSHeap BestOddsRecord) (base : Nat) : JSHeap BestOddsRecord × Nat :=
  stepCopySortH (bestOddsSortLe crit.sortBy)
    (stepFilterH (crit.selectedBook != "all")
      (fun item => item.best_book == crit.selectedBook)
      (stepFilterH crit.showFavorites
        (fun item => isFavorite favorites item.player item.prop_type)
        (stepFilterH (crit.selectedPropType != "all")
          (fun item => item.prop_type == crit.selectedPropType)
          (stepFilterH (crit.searchQuery != "")
            (fun item => jsIncludes (jsToLowerCase item.player) (jsToLowerCase crit.searchQuery))
            (h, base)))))

/-! ## Concrete example data used by counterexamples and witnesses -/

/-- The spec's grouping example: two quotes for player A's points, one per
book, with differing lines. -/
def exampleQuotes : List Quote :=
  [{ player := "A", prop_type := "points", game := "G", team := "T"
     sportsbook := "DraftKings", line := 20
     over_odds := some (-110), under_odds := some (-110) },
   { player := "A", prop_type := "points", game := "G", team := "T"
     sportsbook := "FanDuel", line := 21
     over_odds := some (-110), under_odds := some (-110) }]

def exampleGroup : GroupedProp :=
  { player := "A", propType := "points", game := "G", team := "T"
    books := [("draftkings", { line := 20, overOdds := some (-110), underOdds := some (-110) }),
              ("fanduel", { line := 21, overOdds := some (-110), underOdds := some (-110) })] }

def arbRec (p : String) (pp : Option ℚ) : ArbRecord :=
  { player := p, prop_type := "points", game := "G", team := "T", line := 20
    bet_over := "draftkings", bet_under := "fanduel"
    over_odds := some 100, under_odds := some (-110), profit_percent := pp }

def valRec (p bb : String) : ValueRecord :=
  { player := p, prop_type := "points", game := "G", team := "T", line := 20
    recommended_side := "over", best_book := bb, best_odds := some 100
    edge_percent := some 5, all_odds := none, reasoning := "r" }

def conRec (p bb : String) : ConsensusRecord :=
  { player := p, prop_type := "points", game := "G", line := 20, side := "over"
    best_book := bb, best_odds := some 100, other_odds := some 90
    odds_difference := some 10, reasoning := "r" }

def dscRec (p : String) : DiscRecord :=
  { player := p, prop_type := "points", game := "G", dk_line := 20, fd_line := 21
    dk_over := some (-110), dk_under := some (-110)
    fd_over := some (-110), fd_under := some (-110), line_difference := some 1 }

def bstRec (p bb : String) : BestOddsRecord :=
  { player := p, prop_type := "points", game := "G", line := 20, side := "over"
    best_book := bb, best_odds := some 100, other_odds := some 90
    odds_difference := some 10 }

def grpRec (p : String) (books : List (String × BookEntry)) : GroupedProp :=
  { player := p, propType := "points", game := "G", team := "T", books := books }

/-- An arbitrage batch whose first record lacks `profit_percent`. -/
def arbBatch : List ArbRecord :=
  [arbRec "N" none, arbRec "A" (some 5), arbRec "B" (some 2)]

/-- A grouped prop quoted only at FanDuel. -/
def gFanduelOnly : GroupedProp :=
  grpRec "A" [("fanduel", { line := 21, overOdds := some (-110), underOdds := some (-110) })]

def critDK : Criteria := { profitCriteria with selectedBook := "DraftKings" }

def stEmpty : DashState :=
  { allProps := [], arbitrage := [], discrepancies := [], bestOdds := []
    valueBets := [], consensusBets := [], error := none }

/-- A batch in which exactly one of the six requests failed. -/
def rsOneFail : BatchResponses :=
  { propsRes := .error "One or more API endpoints failed"
    arbRes := .ok [], discRes := .ok [], oddsRes := .ok []
    valueRes := .ok [], consensusRes := .ok [] }

def heapOne : JSHeap GroupedProp := { cells := [[grpRec "A" []]] }

/-- The final heap contains the initial heap's cells as a prefix: every array
allocated before the call is untouched, in content and order. -/
def HeapExtends {α : Type} (h h' : JSHeap α) : Prop :=
  ∃ t, h'.cells = h.cells ++ t

end Dashboard

namespace Dashboard

/-- **C1.** For every valid American odds pair with both values nonzero and
every total stake, the split computed by `calculateStakes` makes the payout if
over wins equal to the payout if under wins. -/
theorem calculateStakes_balanced (o u : Int) (ho : o ≠ 0) (hu : u ≠ 0)
    (S : ℚ) :
    (calculateStakes (some o) (some u) S).stakeOver * decimalMultiplier o
      = (calculateStakes (some o) (some u) S).stakeUnder * decimalMultiplier u := by
  have h1 := decimalMultiplier_pos o
  have h2 := decimalMultiplier_pos u
  show S / (1 + decimalMultiplier o / decimalMultiplier u) * decimalMultiplier o
      = (S - S / (1 + decimalMultiplier o / decimalMultiplier u)) * decimalMultiplier u
  exact stake_balance_algebra _ _ _ h1 h2

/-- Witness for C1 at the spec's own example pair (150, -170) with stake 100. -/
theorem calculateStakes_balanced_witness :
    (150 : Int) ≠ 0 ∧ (-170 : Int) ≠ 0 ∧
      (calculateStakes (some 150) (some (-170)) 100).stakeOver
          * decimalMultiplier 150
        = (calculateStakes (some 150) (some (-170)) 100).stakeUnder
          * decimalMultiplier (-170) :=
  ⟨by decide, by decide,
    calculateStakes_balanced 150 (-170) (by decide) (by decide) 100⟩

/-- **C2, counterexample.** The claim asserts the converter fails with an
InvalidOdds condition on `american = 0` rather than silently treating zero as
non-positive.  In the source the conversion is the unconditional expression
`overOdds > 0 ? overOdds/100 + 1 : 100/Math.abs(overOdds) + 1`; at `0` the
test is false, so the non-positive branch is taken silently and a value is
produced (in JS, `Infinity`; in the `ℚ` model, `100 / 0 + 1 = 1`).  No failure
condition exists anywhere in the code. -/
theorem decimalMultiplier_zero_not_rejected :
    decimalMultiplier 0 = 100 / |((0 : Int) : ℚ)| + 1 ∧ decimalMultiplier 0 = 1 := by
  constructor
  · rfl
  · norm_num [decimalMultiplier]

/-- **C2, amended.** `american = 0` is not rejected: `decimalMultiplier`
silently takes the non-positive branch at zero (a division by zero, `Infinity`
in JS).  When either odds value is `null` (modelled `none`), `calculateStakes`
returns the zero-stake, zero-profit result.  (A JS `undefined` odds value
would actually slip past the `=== null` guard and propagate `NaN`; only the
`null` case of the original claim survives, and it is modelled by `none`.) -/
theorem calculateStakes_none_amended :
    (∀ (u : Option Int) (S : ℚ),
        calculateStakes none u S = { stakeOver := 0, stakeUnder := 0, profit := 0 }) ∧
    (∀ (o : Option Int) (S : ℚ),
        calculateStakes o none S = { stakeOver := 0, stakeUnder := 0, profit := 0 }) ∧
    decimalMultiplier 0 = 100 / |((0 : Int) : ℚ)| + 1 := by
  refine ⟨fun u S => ?_, fun o S => ?_, rfl⟩
  · cases u <;> rfl
  · cases o <;> rfl

theorem isFavorite_toggle_self (favs : List String) (p t : String) :
    isFavorite (toggleFavorite favs p t) p t = !isFavorite favs p t := by
  unfold isFavorite toggleFavorite
  by_cases h : favKey p t ∈ favs
  · simp [List.contains, List.elem_eq_mem, h, List.mem_filter]
  · simp [List.contains, List.elem_eq_mem, h]

/-- **C9.** `toggle` flips membership of the composite key `player-propType`:
afterwards `isFavorite` is the negation of its prior value, and toggling the
same key twice is the identity on membership. -/
theorem toggleFavorite_flips (favs : List String) (p t : String) :
    isFavorite (toggleFavorite favs p t) p t = !isFavorite favs p t ∧
    isFavorite (toggleFavorite (toggleFavorite favs p t) p t) p t
      = isFavorite favs p t := by
  refine ⟨isFavorite_toggle_self favs p t, ?_⟩
  rw [isFavorite_toggle_self, isFavorite_toggle_self, Bool.not_not]

/-- **C10.** `toggle(player, propType)` changes only the membership of its own
composite key: every other composite key's `isFavorite` value is unchanged,
and the relative order of the other favorite keys is preserved (stated as:
the sublist of keys different from the toggled one is unchanged). -/
theorem toggleFavorite_frame (favs : List String) (p t p' t' : String)
    (h : favKey p' t' ≠ favKey p t) :
    isFavorite (toggleFavorite favs p t) p' t' = isFavorite favs p' t' ∧
    (toggleFavorite favs p t).filter (fun k => k != favKey p t)
      = favs.filter (fun k => k != favKey p t) := by
  constructor
  · unfold isFavorite toggleFavorite
    by_cases hmem : favKey p t ∈ favs
    · simp [List.contains, List.elem_eq_mem, hmem, List.mem_filter, h]
    · simp [List.contains, List.elem_eq_mem, hmem, h]
  · unfold toggleFavorite
    by_cases hmem : favKey p t ∈ favs
    · simp [List.contains, List.elem_eq_mem, hmem, List.filter_filter]
    · simp [List.contains, List.elem_eq_mem, hmem, List.filter_append]

/-- Witness for C10: toggling key `A-points` on the state `["B-assists"]`
leaves the membership of `B-assists` and the order of other keys intact. -/
theorem toggleFavorite_frame_witness :
    favKey "B" "assists" ≠ favKey "A" "points" ∧
    (isFavorite (toggleFavorite ["B-assists"] "A" "points") "B" "assists"
        = isFavorite ["B-assists"] "B" "assists" ∧
      (toggleFavorite ["B-assists"] "A" "points").filter
          (fun k => k != favKey "A" "points")
        = (["B-assists"] : List String).filter (fun k => k != favKey "A" "points")) :=
  ⟨by decide, toggleFavorite_frame ["B-assists"] "A" "points" "B" "assists" (by decide)⟩

theorem mem_foldl_ins (ks : List String) (acc : List String) (a : String) :
    a ∈ ks.foldl (fun acc k => if k ∈ acc then acc else acc ++ [k]) acc
      ↔ a ∈ acc ∨ a ∈ ks := by
  induction ks generalizing acc with
  | nil => simp
  | cons k ks ih =>
    simp only [List.foldl_cons]
    rw [ih]
    by_cases h : k ∈ acc
    · simp only [if_pos h, List.mem_cons]
      constructor
      · rintro (ha | hk)
        · exact Or.inl ha
        · exact Or.inr (Or.inr hk)
      · rintro (ha | rfl | hk)
        · exact Or.inl ha
        · exact Or.inl h
        · exact Or.inr hk
    · simp only [if_neg h, List.mem_append, List.mem_singleton, List.mem_cons]
      tauto

theorem mem_firstSeen (ks : List String) (a : String) :
    a ∈ firstSeen ks ↔ a ∈ ks := by
  unfold firstSeen
  rw [mem_foldl_ins]
  simp

theorem firstSeen_append (ks : List String) (a : String) :
    firstSeen (ks ++ [a])
      = if a ∈ ks then firstSeen ks else firstSeen ks ++ [a] := by
  unfold firstSeen
  rw [List.foldl_append]
  simp only [List.foldl_cons, List.foldl_nil]
  by_cases h : a ∈ ks
  · rw [if_pos, if_pos h]
    exact (mem_foldl_ins ks [] a).2 (Or.inr h)
  · rw [if_neg, if_neg h]
    intro hmem
    exact h (by simpa using (mem_foldl_ins ks [] a).1 hmem)

theorem filter_key_eq_nil (k : String) (qs : List Quote) :
    qs.filter (fun q => qkey q == k) = [] ↔ k ∉ qs.map qkey := by
  rw [List.filter_eq_nil_iff]
  constructor
  · intro h hmem
    rcases List.mem_map.1 hmem with ⟨q, hq, hkq⟩
    exact h q hq (by simpa using hkq)
  · intro h q hq
    simp only [beq_iff_eq]
    intro hkq
    exact h (List.mem_map.2 ⟨q, hq, hkq⟩)

theorem groupFor_eq_none_iff (k : String) (qs : List Quote) :
    groupFor k qs = none ↔ k ∉ qs.map qkey := by
  rw [← filter_key_eq_nil k qs]
  cases hf : qs.filter (fun q => qkey q == k) with
  | nil => simp [groupFor, hf]
  | cons q rest => simp [groupFor, hf]

theorem groupFor_append_ne (k : String) (qs : List Quote) (q : Quote)
    (h : qkey q ≠ k) : groupFor k (qs ++ [q]) = groupFor k qs := by
  unfold groupFor
  rw [List.filter_append]
  simp [h]

theorem groupFor_append_none (k : String) (qs : List Quote) (q : Quote)
    (hq : qkey q = k) (h0 : groupFor k qs = none) :
    groupFor k (qs ++ [q]) = some (addBook (mkGroup q) q) := by
  have hf : qs.filter (fun q => qkey q == k) = [] := by
    rw [filter_key_eq_nil]
    exact (groupFor_eq_none_iff k qs).1 h0
  unfold groupFor
  rw [List.filter_append, hf]
  simp [hq]

theorem groupFor_append_some (k : String) (qs : List Quote) (q : Quote)
    (g : GroupedProp) (hq : qkey q = k) (h0 : groupFor k qs = some g) :
    groupFor k (qs ++ [q]) = some (addBook g q) := by
  unfold groupFor at h0 ⊢
  cases hf : qs.filter (fun q => qkey q == k) with
  | nil => rw [hf] at h0; simp at h0
  | cons q0 rest =>
    rw [hf] at h0
    simp only [Option.some.injEq] at h0
    rw [List.filter_append, hf]
    have hfq : List.filter (fun q => qkey q == k) [q] = [q] := by simp [hq]
    rw [hfq]
    simp only [List.cons_append, Option.some.injEq]
    rw [show q0 :: (rest ++ [q]) = (q0 :: rest) ++ [q] from rfl, List.foldl_append, h0]
    rfl

theorem filterMap_congr_mem {α β : Type _} {f g : α → Option β} {l : List α}
    (h : ∀ a ∈ l, f a = g a) : l.filterMap f = l.filterMap g := by
  induction l with
  | nil => rfl
  | cons a l ih =>
    rw [List.filterMap_cons, List.filterMap_cons, h a (List.mem_cons_self a l),
      ih (fun a ha => h a (List.mem_cons_of_mem _ ha))]

theorem specAssoc_key_mem {qs : List Quote} {p : String × GroupedProp}
    (hp : p ∈ specAssoc qs) : p.1 ∈ qs.map qkey := by
  rcases List.mem_filterMap.1 hp with ⟨k, hk, hfk⟩
  cases hg : groupFor k qs with
  | none => rw [hg] at hfk; simp at hfk
  | some g =>
    rw [hg] at hfk
    rw [show (some g).map (fun g => (k, g)) = some (k, g) from rfl] at hfk
    injection hfk with hfk
    rw [← hfk]
    exact (mem_firstSeen _ _).1 hk

theorem specAssoc_any_key (qs : List Quote) (k : String) :
    (specAssoc qs).any (fun p => p.1 == k) = true ↔ k ∈ qs.map qkey := by
  rw [List.any_eq_true]
  constructor
  · rintro ⟨p, hp, hpk⟩
    have hm := specAssoc_key_mem hp
    rwa [show p.1 = k from by simpa using hpk] at hm
  · intro hk
    have hkf : k ∈ firstSeen (qs.map qkey) := (mem_firstSeen _ _).2 hk
    cases hg : groupFor k qs with
    | none => exact absurd ((groupFor_eq_none_iff k qs).1 hg) (by simpa using hk)
    | some g =>
      refine ⟨(k, g), List.mem_filterMap.2 ⟨k, hkf, ?_⟩, by simp⟩
      rw [hg]
      rfl

theorem stepGroup_of_mem (acc : List (String × GroupedProp)) (q : Quote)
    (h : acc.any (fun p => p.1 == qkey q) = true) :
    stepGroup acc q
      = acc.map (fun p => if p.1 == qkey q then (p.1, addBook p.2 q) else p) := by
  simp only [stepGroup, if_pos h]

theorem stepGroup_of_not_mem (acc : List (String × GroupedProp)) (q : Quote)
    (h : ¬ acc.any (fun p => p.1 == qkey q) = true) :
    stepGroup acc q
      = (acc ++ [(qkey q, mkGroup q)]).map
          (fun p => if p.1 == qkey q then (p.1, addBook p.2 q) else p) := by
  simp only [stepGroup, if_neg h]

theorem foldl_stepGroup_eq_specAssoc (qs : List Quote) :
    qs.foldl stepGroup [] = specAssoc qs := by
  induction qs using List.reverseRecOn with
  | nil => rfl
  | append_singleton pre q ih =>
    rw [List.foldl_append, List.foldl_cons, List.foldl_nil, ih]
    by_cases hk : qkey q ∈ pre.map qkey
    · -- key already seen: in-place update of the existing group
      rw [stepGroup_of_mem _ _ ((specAssoc_any_key pre (qkey q)).2 hk)]
      unfold specAssoc
      simp only [List.map_append, List.map_cons, List.map_nil]
      rw [firstSeen_append, if_pos hk, List.map_filterMap]
      apply filterMap_congr_mem
      intro k' hk'
      by_cases hkk : k' = qkey q
      · subst hkk
        cases hg : groupFor (qkey q) pre with
        | none => exact absurd ((groupFor_eq_none_iff _ pre).1 hg) (by simpa using hk)
        | some g =>
          rw [groupFor_append_some _ pre q g rfl hg]
          simp
      · rw [groupFor_append_ne k' pre q (fun h => hkk h.symm)]
        cases groupFor k' pre with
        | none => rfl
        | some g => simp [hkk]
    · -- fresh key: append a new group, existing entries untouched
      have hany : ¬ ((specAssoc pre).any (fun p => p.1 == qkey q) = true) := by
        rw [specAssoc_any_key]; exact hk
      rw [stepGroup_of_not_mem _ _ hany, List.map_append]
      have hmapid : (specAssoc pre).map
          (fun p => if p.1 == qkey q then (p.1, addBook p.2 q) else p)
            = specAssoc pre := by
        have hcl := List.map_congr_left (l := specAssoc pre)
          (f := fun p => if p.1 == qkey q then (p.1, addBook p.2 q) else p)
          (g := id)
          (fun p hp => by
            have hne : p.1 ≠ qkey q := fun h => hk (h ▸ specAssoc_key_mem hp)
            simp [hne])
        rw [hcl, List.map_id]
      rw [hmapid]
      unfold specAssoc
      simp only [List.map_append, List.map_cons, List.map_nil]
      rw [firstSeen_append, if_neg hk, List.filterMap_append]
      congr 1
      · apply filterMap_congr_mem
        intro k' hk'
        have hk'mem : k' ∈ pre.map qkey := (mem_firstSeen _ _).1 hk'
        have hne : qkey q ≠ k' := fun h => hk (h ▸ hk'mem)
        rw [groupFor_append_ne k' pre q hne]
      · have hnone : groupFor (qkey q) pre = none :=
          (groupFor_eq_none_iff _ _).2 hk
        rw [List.filterMap_cons, groupFor_append_none (qkey q) pre q rfl hnone]
        simp

theorem groupedProps_eq_groupSpec (qs : List Quote) :
    groupedProps qs = groupSpec qs := by
  unfold groupedProps groupSpec
  rw [foldl_stepGroup_eq_specAssoc]
  unfold specAssoc
  rw [List.map_filterMap]
  apply filterMap_congr_mem
  intro k hk
  cases groupFor k qs with
  | none => rfl
  | some g => rfl


/-- **C3.** `group` is deterministic (it is a pure function of the input
sequence) and refines the spec's description: one `GroupedProp` per distinct
(player, propType) key in first-seen insertion order, each seeded from the
first quote bearing its key, with each quote's book entry written in turn
(later quotes overwriting earlier entries for the same book); on the spec's
two-quote example it yields exactly one group with draftkings line 20,
fanduel line 21, and a line mismatch. -/
theorem groupedProps_refines_spec :
    (∀ qs : List Quote, groupedProps qs = groupSpec qs) ∧
    groupedProps exampleQuotes = [exampleGroup] ∧
    (lookupBook exampleGroup "draftkings").map BookEntry.line = some 20 ∧
    (lookupBook exampleGroup "fanduel").map BookEntry.line = some 21 ∧
    lineMismatch exampleGroup = true :=
  ⟨groupedProps_eq_groupSpec, by rfl, by rfl, by rfl, by rfl⟩

theorem arbSortLe_player (a b : ArbRecord) :
    arbSortLe "player" a b = decide (a.player ≤ b.player) := rfl

theorem valueSortLe_player (a b : ValueRecord) :
    valueSortLe "player" a b = decide (a.player ≤ b.player) := rfl

theorem consensusSortLe_player (a b : ConsensusRecord) :
    consensusSortLe "player" a b = decide (a.player ≤ b.player) := rfl

theorem discSortLe_player (a b : DiscRecord) :
    discSortLe "player" a b = decide (a.player ≤ b.player) := rfl

theorem bestOddsSortLe_player (a b : BestOddsRecord) :
    bestOddsSortLe "player" a b = decide (a.player ≤ b.player) := rfl

/-- **C4.** With all filters at default and sort key player, the pipeline is
the identity on every category's base collection, provided the five sorted
categories' collections are already ascending by player (the All Props tab
has no sort step, so it is the identity unconditionally). -/
theorem pipeline_identity (favs : List String)
    (gps : List GroupedProp) (arbs : List ArbRecord) (vals : List ValueRecord)
    (cons : List ConsensusRecord) (discs : List DiscRecord)
    (bests : List BestOddsRecord)
    (ha : arbs.Pairwise (fun a b => a.player ≤ b.player))
    (hv : vals.Pairwise (fun a b => a.player ≤ b.player))
    (hc : cons.Pairwise (fun a b => a.player ≤ b.player))
    (hd : discs.Pairwise (fun a b => a.player ≤ b.player))
    (hb : bests.Pairwise (fun a b => a.player ≤ b.player)) :
    filteredDataAll identityCriteria favs gps = gps ∧
    filteredDataArb identityCriteria favs arbs = arbs ∧
    filteredDataValue identityCriteria favs vals = vals ∧
    filteredDataConsensus identityCriteria favs cons = cons ∧
    filteredDataDisc identityCriteria favs discs = discs ∧
    filteredDataBestOdds identityCriteria favs bests = bests := by
  refine ⟨rfl, ?_, ?_, ?_, ?_, ?_⟩
  · exact List.mergeSort_of_sorted
      (ha.imp (fun hab => by
        rw [show identityCriteria.sortBy = "player" from rfl, arbSortLe_player]
        exact decide_eq_true hab))
  · exact List.mergeSort_of_sorted
      (hv.imp (fun hab => by
        rw [show identityCriteria.sortBy = "player" from rfl, valueSortLe_player]
        exact decide_eq_true hab))
  · exact List.mergeSort_of_sorted
      (hc.imp (fun hab => by
        rw [show identityCriteria.sortBy = "player" from rfl, consensusSortLe_player]
        exact decide_eq_true hab))
  · exact List.mergeSort_of_sorted
      (hd.imp (fun hab => by
        rw [show identityCriteria.sortBy = "player" from rfl, discSortLe_player]
        exact decide_eq_true hab))
  · exact List.mergeSort_of_sorted
      (hb.imp (fun hab => by
        rw [show identityCriteria.sortBy = "player" from rfl, bestOddsSortLe_player]
        exact decide_eq_true hab))


/-- Witness for C4 at concrete player-sorted two-element collections. -/
theorem pipeline_identity_witness :
    List.Pairwise (fun (a b : ArbRecord) => a.player ≤ b.player)
      [arbRec "A" (some 2), arbRec "B" (some 5)] ∧
    List.Pairwise (fun (a b : ValueRecord) => a.player ≤ b.player)
      [valRec "A" "draftkings", valRec "B" "fanduel"] ∧
    List.Pairwise (fun (a b : ConsensusRecord) => a.player ≤ b.player)
      [conRec "A" "draftkings", conRec "B" "fanduel"] ∧
    List.Pairwise (fun (a b : DiscRecord) => a.player ≤ b.player)
      [dscRec "A", dscRec "B"] ∧
    List.Pairwise (fun (a b : BestOddsRecord) => a.player ≤ b.player)
      [bstRec "A" "draftkings", bstRec "B" "fanduel"] ∧
    (filteredDataAll identityCriteria [] [grpRec "A" []] = [grpRec "A" []] ∧
     filteredDataArb identityCriteria [] [arbRec "A" (some 2), arbRec "B" (some 5)]
       = [arbRec "A" (some 2), arbRec "B" (some 5)] ∧
     filteredDataValue identityCriteria [] [valRec "A" "draftkings", valRec "B" "fanduel"]
       = [valRec "A" "draftkings", valRec "B" "fanduel"] ∧
     filteredDataConsensus identityCriteria [] [conRec "A" "draftkings", conRec "B" "fanduel"]
       = [conRec "A" "draftkings", conRec "B" "fanduel"] ∧
     filteredDataDisc identityCriteria [] [dscRec "A", dscRec "B"]
       = [dscRec "A", dscRec "B"] ∧
     filteredDataBestOdds identityCriteria [] [bstRec "A" "draftkings", bstRec "B" "fanduel"]
       = [bstRec "A" "draftkings", bstRec "B" "fanduel"]) := by
  have pA : List.Pairwise (fun (a b : ArbRecord) => a.player ≤ b.player)
      [arbRec "A" (some 2), arbRec "B" (some 5)] := by
    simp [arbRec, List.pairwise_cons]
    decide
  have pV : List.Pairwise (fun (a b : ValueRecord) => a.player ≤ b.player)
      [valRec "A" "draftkings", valRec "B" "fanduel"] := by
    simp [valRec, List.pairwise_cons]
    decide
  have pC : List.Pairwise (fun (a b : ConsensusRecord) => a.player ≤ b.player)
      [conRec "A" "draftkings", conRec "B" "fanduel"] := by
    simp [conRec, List.pairwise_cons]
    decide
  have pD : List.Pairwise (fun (a b : DiscRecord) => a.player ≤ b.player)
      [dscRec "A", dscRec "B"] := by
    simp [dscRec, List.pairwise_cons]
    decide
  have pB : List.Pairwise (fun (a b : BestOddsRecord) => a.player ≤ b.player)
      [bstRec "A" "draftkings", bstRec "B" "fanduel"] := by
    simp [bstRec, List.pairwise_cons]
    decide
  exact ⟨pA, pV, pC, pD, pB,
    pipeline_identity [] [grpRec "A" []] _ _ _ _ _ pA pV pC pD pB⟩


unseal List.merge List.mergeSort in
theorem arbBatch_eval : filteredDataArb profitCriteria [] arbBatch = arbBatch := rfl

/-- **C5, counterexample.** A record whose `profit_percent` is missing is
neither excluded from the ranked output nor sorted last: all its comparator
results are NaN, which ECMAScript `SortCompare` maps to `+0` (a tie), so the
stable sort leaves it in first position here. -/
theorem missing_rank_field_kept_in_place :
    filteredDataArb profitCriteria [] arbBatch = arbBatch ∧
    arbRec "N" none ∈ filteredDataArb profitCriteria [] arbBatch ∧
    (filteredDataArb profitCriteria [] arbBatch).getLast? ≠ some (arbRec "N" none) := by
  refine ⟨arbBatch_eval, ?_, ?_⟩
  · rw [arbBatch_eval]
    simp [arbBatch]
  · rw [arbBatch_eval]
    decide

/-- **C5, amended.** A record with a missing numeric ranking field never
aborts the batch and is never dropped: each category's ranked output is a
permutation of its filtered input.  The record need not sort last — its
comparisons are ties (NaN mapped to +0 by SortCompare), so the stable sort
keeps it in its relative position, as the concrete batch shows. -/
theorem sort_never_drops_records :
    (∀ crit favs arbs, List.Perm (filteredDataArb crit favs arbs)
        (arbFilterPhase crit favs arbs)) ∧
    (∀ crit favs vals, List.Perm (filteredDataValue crit favs vals)
        (valueFilterPhase crit favs vals)) ∧
    (∀ crit favs cons, List.Perm (filteredDataConsensus crit favs cons)
        (consensusFilterPhase crit favs cons)) ∧
    (∀ crit favs discs, List.Perm (filteredDataDisc crit favs discs)
        (discFilterPhase crit favs discs)) ∧
    (∀ crit favs bests, List.Perm (filteredDataBestOdds crit favs bests)
        (bestOddsFilterPhase crit favs bests)) ∧
    filteredDataArb profitCriteria [] arbBatch = arbBatch :=
  ⟨fun _ _ _ => List.mergeSort_perm _ _, fun _ _ _ => List.mergeSort_perm _ _,
    fun _ _ _ => List.mergeSort_perm _ _, fun _ _ _ => List.mergeSort_perm _ _,
    fun _ _ _ => List.mergeSort_perm _ _, arbBatch_eval⟩


/-- **C6.** The batch is all-or-nothing: if any of the six requests fails,
every derived collection is empty and a single error is set; if none fails,
every collection holds its endpoint's payload and no error is set.  No
mixture of populated and empty collections is possible. -/
theorem fetch_all_or_nothing (st : DashState) (rs : BatchResponses) :
    (anyFailed rs = true →
      (fetchAllData st rs).allProps = [] ∧
      (fetchAllData st rs).arbitrage = [] ∧
      (fetchAllData st rs).discrepancies = [] ∧
      (fetchAllData st rs).bestOdds = [] ∧
      (fetchAllData st rs).valueBets = [] ∧
      (fetchAllData st rs).consensusBets = [] ∧
      (fetchAllData st rs).error.isSome = true) ∧
    (anyFailed rs = false →
      (fetchAllData st rs).error = none ∧
      rs.propsRes = .ok (fetchAllData st rs).allProps ∧
      rs.arbRes = .ok (fetchAllData st rs).arbitrage ∧
      rs.discRes = .ok (fetchAllData st rs).discrepancies ∧
      rs.oddsRes = .ok (fetchAllData st rs).bestOdds ∧
      rs.valueRes = .ok (fetchAllData st rs).valueBets ∧
      rs.consensusRes = .ok (fetchAllData st rs).consensusBets) := by
  obtain ⟨p, a, d, o, v, c⟩ := rs
  cases p <;> cases a <;> cases d <;> cases o <;> cases v <;> cases c <;>
    simp [fetchAllData, anyFailed, isFail]

/-- Witness for C6: a batch with exactly one failing request leaves all six
collections empty with the error set. -/
theorem fetch_all_or_nothing_witness :
    anyFailed rsOneFail = true ∧
    ((fetchAllData stEmpty rsOneFail).allProps = [] ∧
     (fetchAllData stEmpty rsOneFail).arbitrage = [] ∧
     (fetchAllData stEmpty rsOneFail).discrepancies = [] ∧
     (fetchAllData stEmpty rsOneFail).bestOdds = [] ∧
     (fetchAllData stEmpty rsOneFail).valueBets = [] ∧
     (fetchAllData stEmpty rsOneFail).consensusBets = [] ∧
     (fetchAllData stEmpty rsOneFail).error.isSome = true) :=
  ⟨rfl, (fetch_all_or_nothing stEmpty rsOneFail).1 rfl⟩


/-- **C7, counterexample.** The claim says the displayable sequence of the
`all` category is unaffected by the sportsbook filter; but the All Props view
additionally drops rows lacking the selected book, so a FanDuel-only prop
disappears when DraftKings is selected. -/
theorem sportsbook_filter_affects_all_view :
    displayableAll critDK [] [gFanduelOnly] = [] ∧
    displayableAll profitCriteria [] [gFanduelOnly] = [gFanduelOnly] := ⟨rfl, rfl⟩

/-- **C7, amended.** In the pipeline the sportsbook filter applies only to
value, consensus and best-odds (a record is kept iff the filter is "all" or
its `best_book` equals it); the pipeline output for arbitrage, discrepancies
and all is independent of the selected book.  However the All Props view
applies a further row filter, so the sequence that view displays keeps a
record iff it passed the pipeline and carries the selected book's entry. -/
theorem sportsbook_filter_semantics :
    (∀ crit favs (l : List ArbRecord) b,
        filteredDataArb { crit with selectedBook := b } favs l
          = filteredDataArb crit favs l) ∧
    (∀ crit favs (l : List DiscRecord) b,
        filteredDataDisc { crit with selectedBook := b } favs l
          = filteredDataDisc crit favs l) ∧
    (∀ crit favs (l : List GroupedProp) b,
        filteredDataAll { crit with selectedBook := b } favs l
          = filteredDataAll crit favs l) ∧
    (∀ crit favs (l : List ValueRecord) v,
        v ∈ filteredDataValue crit favs l ↔
          (v ∈ filteredDataValue { crit with selectedBook := "all" } favs l ∧
            (crit.selectedBook = "all" ∨ v.best_book = crit.selectedBook))) ∧
    (∀ crit favs (l : List ConsensusRecord) v,
        v ∈ filteredDataConsensus crit favs l ↔
          (v ∈ filteredDataConsensus { crit with selectedBook := "all" } favs l ∧
            (crit.selectedBook = "all" ∨ v.best_book = crit.selectedBook))) ∧
    (∀ crit favs (l : List BestOddsRecord) v,
        v ∈ filteredDataBestOdds crit favs l ↔
          (v ∈ filteredDataBestOdds { crit with selectedBook := "all" } favs l ∧
            (crit.selectedBook = "all" ∨ v.best_book = crit.selectedBook))) ∧
    (∀ crit favs (l : List GroupedProp) g,
        g ∈ displayableAll crit favs l ↔
          (g ∈ filteredDataAll crit favs l ∧
            allPropsRowKeep crit.selectedBook g = true)) := by
  refine ⟨fun _ _ _ _ => rfl, fun _ _ _ _ => rfl, fun _ _ _ _ => rfl, ?_, ?_, ?_, ?_⟩
  · intro crit favs l v
    simp only [filteredDataValue, List.mem_mergeSort]
    show v ∈ (if crit.selectedBook != "all" then
        (valueFilterPhase { crit with selectedBook := "all" } favs l).filter
          (fun item => item.best_book == crit.selectedBook)
      else valueFilterPhase { crit with selectedBook := "all" } favs l) ↔ _
    by_cases hb : crit.selectedBook = "all"
    · simp [hb]
    · simp [hb, List.mem_filter]
  · intro crit favs l v
    simp only [filteredDataConsensus, List.mem_mergeSort]
    show v ∈ (if crit.selectedBook != "all" then
        (consensusFilterPhase { crit with selectedBook := "all" } favs l).filter
          (fun item => item.best_book == crit.selectedBook)
      else consensusFilterPhase { crit with selectedBook := "all" } favs l) ↔ _
    by_cases hb : crit.selectedBook = "all"
    · simp [hb]
    · simp [hb, List.mem_filter]
  · intro crit favs l v
    simp only [filteredDataBestOdds, List.mem_mergeSort]
    show v ∈ (if crit.selectedBook != "all" then
        (bestOddsFilterPhase { crit with selectedBook := "all" } favs l).filter
          (fun item => item.best_book == crit.selectedBook)
      else bestOddsFilterPhase { crit with selectedBook := "all" } favs l) ↔ _
    by_cases hb : crit.selectedBook = "all"
    · simp [hb]
    · simp [hb, List.mem_filter]
  · intro crit favs l g
    simp [displayableAll, List.mem_filter]


theorem heapExtends_refl {α : Type} (h : JSHeap α) : HeapExtends h h :=
  ⟨[], by simp⟩

theorem heapExtends_trans {α : Type} {h1 h2 h3 : JSHeap α}
    (a : HeapExtends h1 h2) (b : HeapExtends h2 h3) : HeapExtends h1 h3 := by
  obtain ⟨t1, e1⟩ := a
  obtain ⟨t2, e2⟩ := b
  exact ⟨t1 ++ t2, by rw [e2, e1, List.append_assoc]⟩

theorem stepFilterH_extends {α : Type} (cond : Bool) (p : α → Bool)
    (s : JSHeap α × Nat) : HeapExtends s.1 (stepFilterH cond p s).1 := by
  unfold stepFilterH
  cases cond with
  | false => exact heapExtends_refl _
  | true => exact ⟨[(s.1.read s.2).filter p], rfl⟩

/-- The copy-then-sort-in-place step only touches the freshly allocated
cell: the heap is extended by exactly the sorted copy, and the returned
reference is that fresh cell. -/
theorem stepCopySortH_spec {α : Type} (le : α → α → Bool) (s : JSHeap α × Nat) :
    (stepCopySortH le s).1.cells
        = s.1.cells ++ [((s.1.read s.2).mergeSort le)] ∧
    (stepCopySortH le s).2 = s.1.cells.length := by
  unfold stepCopySortH jsCopySortH JSHeap.alloc JSHeap.write JSHeap.read
  constructor
  · show (s.1.cells ++ [s.1.cells.getD s.2 []]).set s.1.cells.length
        (((s.1.cells ++ [s.1.cells.getD s.2 []]).getD s.1.cells.length []).mergeSort le)
      = s.1.cells ++ [(s.1.cells.getD s.2 []).mergeSort le]
    have hget : (s.1.cells ++ [s.1.cells.getD s.2 []]).getD s.1.cells.length []
        = s.1.cells.getD s.2 [] := by
      rw [List.getD_eq_getElem?_getD, List.getElem?_append_right (Nat.le_refl _)]
      simp
    rw [hget, List.set_append_right _ _ (Nat.le_refl _), Nat.sub_self]
    rfl
  · rfl

theorem stepCopySortH_extends {α : Type} (le : α → α → Bool)
    (s : JSHeap α × Nat) : HeapExtends s.1 (stepCopySortH le s).1 :=
  ⟨[((s.1.read s.2).mergeSort le)], (stepCopySortH_spec le s).1⟩

theorem stepFilterH_fst_le {α : Type} (cond : Bool) (p : α → Bool)
    (s : JSHeap α × Nat) :
    s.1.cells.length ≤ (stepFilterH cond p s).1.cells.length := by
  obtain ⟨t, e⟩ := stepFilterH_extends cond p s
  simp [e]

theorem heapExtends_take {α : Type} {h h' : JSHeap α} (e : HeapExtends h h') :
    h'.cells.take h.cells.length = h.cells := by
  obtain ⟨t, e⟩ := e
  rw [e, List.take_left]


theorem filteredDataAllH_extends (crit : Criteria) (favs : List String)
    (hS : JSHeap GroupedProp) (base : Nat) :
    HeapExtends hS (filteredDataAllH crit favs hS base).1 := by
  unfold filteredDataAllH
  exact heapExtends_trans
    (heapExtends_trans (stepFilterH_extends _ _ (hS, base)) (stepFilterH_extends _ _ _))
    (stepFilterH_extends _ _ _)

theorem filteredDataArbH_extends (crit : Criteria) (favs : List String)
    (hS : JSHeap ArbRecord) (base : Nat) :
    HeapExtends hS (filteredDataArbH crit favs hS base).1 := by
  unfold filteredDataArbH
  exact heapExtends_trans
    (heapExtends_trans
      (heapExtends_trans (stepFilterH_extends _ _ (hS, base)) (stepFilterH_extends _ _ _))
      (stepFilterH_extends _ _ _))
    (stepCopySortH_extends _ _)

theorem filteredDataArbH_ref_ge (crit : Criteria) (favs : List String)
    (hS : JSHeap ArbRecord) (base : Nat) :
    hS.cells.length ≤ (filteredDataArbH crit favs hS base).2 := by
  unfold filteredDataArbH
  rw [(stepCopySortH_spec _ _).2]
  exact le_trans (stepFilterH_fst_le _ _ (hS, base))
    (le_trans (stepFilterH_fst_le _ _ _) (stepFilterH_fst_le _ _ _))

theorem filteredDataValueH_extends (crit : Criteria) (favs : List String)
    (hS : JSHeap ValueRecord) (base : Nat) :
    HeapExtends hS (filteredDataValueH crit favs hS base).1 := by
  unfold filteredDataValueH
  exact heapExtends_trans
    (heapExtends_trans
      (heapExtends_trans
        (heapExtends_trans (stepFilterH_extends _ _ (hS, base)) (stepFilterH_extends _ _ _))
        (stepFilterH_extends _ _ _))
      (stepFilterH_extends _ _ _))
    (stepCopySortH_extends _ _)

theorem filteredDataValueH_ref_ge (crit : Criteria) (favs : List String)
    (hS : JSHeap ValueRecord) (base : Nat) :
    hS.cells.length ≤ (filteredDataValueH crit favs hS base).2 := by
  unfold filteredDataValueH
  rw [(stepCopySortH_spec _ _).2]
  exact le_trans (stepFilterH_fst_le _ _ (hS, base))
    (le_trans (stepFilterH_fst_le _ _ _)
      (le_trans (stepFilterH_fst_le _ _ _) (stepFilterH_fst_le _ _ _)))

theorem filteredDataConsensusH_extends (crit : Criteria) (favs : List String)
    (hS : JSHeap ConsensusRecord) (base : Nat) :
    HeapExtends hS (filteredDataConsensusH crit favs hS base).1 := by
  unfold filteredDataConsensusH
  exact heapExtends_trans
    (heapExtends_trans
      (heapExtends_trans
        (heapExtends_trans (stepFilterH_extends _ _ (hS, base)) (stepFilterH_extends _ _ _))
        (stepFilterH_extends _ _ _))
      (stepFilterH_extends _ _ _))
    (stepCopySortH_extends _ _)

theorem filteredDataConsensusH_ref_ge (crit : Criteria) (favs : List String)
    (hS : JSHeap ConsensusRecord) (base : Nat) :
    hS.cells.length ≤ (filteredDataConsensusH crit favs hS base).2 := by
  unfold filteredDataConsensusH
  rw [(stepCopySortH_spec _ _).2]
  exact le_trans (stepFilterH_fst_le _ _ (hS, base))
    (le_trans (stepFilterH_fst_le _ _ _)
      (le_trans (stepFilterH_fst_le _ _ _) (stepFilterH_fst_le _ _ _)))

theorem filteredDataDiscH_extends (crit : Criteria) (favs : List String)
    (hS : JSHeap DiscRecord) (base : Nat) :
    HeapExtends hS (filteredDataDiscH crit favs hS base).1 := by
  unfold filteredDataDiscH
  exact heapExtends_trans
    (heapExtends_trans
      (heapExtends_trans (stepFilterH_extends _ _ (hS, base)) (stepFilterH_extends _ _ _))
      (stepFilterH_extends _ _ _))
    (stepCopySortH_extends _ _)

theorem filteredDataDiscH_ref_ge (crit : Criteria) (favs : List String)
    (hS : JSHeap DiscRecord) (base : Nat) :
    hS.cells.length ≤ (filteredDataDiscH crit favs hS base).2 := by
  unfold filteredDataDiscH
  rw [(stepCopySortH_spec _ _).2]
  exact le_trans (stepFilterH_fst_le _ _ (hS, base))
    (le_trans (stepFilterH_fst_le _ _ _) (stepFilterH_fst_le _ _ _))

theorem filteredDataBestOddsH_extends (crit : Criteria) (favs : List String)
    (hS : JSHeap BestOddsRecord) (base : Nat) :
    HeapExtends hS (filteredDataBestOddsH crit favs hS base).1 := by
  unfold filteredDataBestOddsH
  exact heapExtends_trans
    (heapExtends_trans
      (heapExtends_trans
        (heapExtends_trans (stepFilterH_extends _ _ (hS, base)) (stepFilterH_extends _ _ _))
        (stepFilterH_extends _ _ _))
      (stepFilterH_extends _ _ _))
    (stepCopySortH_extends _ _)

theorem filteredDataBestOddsH_ref_ge (crit : Criteria) (favs : List String)
    (hS : JSHeap BestOddsRecord) (base : Nat) :
    hS.cells.length ≤ (filteredDataBestOddsH crit favs hS base).2 := by
  unfold filteredDataBestOddsH
  rw [(stepCopySortH_spec _ _).2]
  exact le_trans (stepFilterH_fst_le _ _ (hS, base))
    (le_trans (stepFilterH_fst_le _ _ _)
      (le_trans (stepFilterH_fst_le _ _ _) (stepFilterH_fst_le _ _ _)))

/-- **C8, counterexample.** The claim says the pipeline's output is always a
new sequence.  For the All Props category with every filter inactive there is
no filtering and no sort branch, so the pipeline returns the very input
array reference, with the heap untouched. -/
theorem pipeline_output_not_always_new :
    filteredDataAllH identityCriteria [] heapOne 0 = (heapOne, 0) := rfl

/-- **C8, amended.** The pipeline never mutates any pre-existing array: the
initial heap is a prefix of the final heap for every category (so the base
collections and anything else allocated earlier are unchanged in content and
order; the sort step works on a fresh copy).  The five sorted categories
always return a freshly allocated array; the output is however not always
new: the All Props category with inactive filters returns its input
reference. -/
theorem pipeline_no_mutation_amended :
    (∀ crit favs (hS : JSHeap GroupedProp) base,
      (filteredDataAllH crit favs hS base).1.cells.take hS.cells.length = hS.cells) ∧
    (∀ crit favs (hS : JSHeap ArbRecord) base,
      (filteredDataArbH crit favs hS base).1.cells.take hS.cells.length = hS.cells ∧
      hS.cells.length ≤ (filteredDataArbH crit favs hS base).2) ∧
    (∀ crit favs (hS : JSHeap ValueRecord) base,
      (filteredDataValueH crit favs hS base).1.cells.take hS.cells.length = hS.cells ∧
      hS.cells.length ≤ (filteredDataValueH crit favs hS base).2) ∧
    (∀ crit favs (hS : JSHeap ConsensusRecord) base,
      (filteredDataConsensusH crit favs hS base).1.cells.take hS.cells.length = hS.cells ∧
      hS.cells.length ≤ (filteredDataConsensusH crit favs hS base).2) ∧
    (∀ crit favs (hS : JSHeap DiscRecord) base,
      (filteredDataDiscH crit favs hS base).1.cells.take hS.cells.length = hS.cells ∧
      hS.cells.length ≤ (filteredDataDiscH crit favs hS base).2) ∧
    (∀ crit favs (hS : JSHeap BestOddsRecord) base,
      (filteredDataBestOddsH crit favs hS base).1.cells.take hS.cells.length = hS.cells ∧
      hS.cells.length ≤ (filteredDataBestOddsH crit favs hS base).2) ∧
    filteredDataAllH identityCriteria [] heapOne 0 = (heapOne, 0) :=
  ⟨fun crit favs hS base => heapExtends_take (filteredDataAllH_extends crit favs hS base),
   fun crit favs hS base =>
     ⟨heapExtends_take (filteredDataArbH_extends crit favs hS base),
      filteredDataArbH_ref_ge crit favs hS base⟩,
   fun crit favs hS base =>
     ⟨heapExtends_take (filteredDataValueH_extends crit favs hS base),
      filteredDataValueH_ref_ge crit favs hS base⟩,
   fun crit favs hS base =>
     ⟨heapExtends_take (filteredDataConsensusH_extends crit favs hS base),
      filteredDataConsensusH_ref_ge crit favs hS base⟩,
   fun crit favs hS base =>
     ⟨heapExtends_take (filteredDataDiscH_extends crit favs hS base),
      filteredDataDiscH_ref_ge crit favs hS base⟩,
   fun crit favs hS base =>
     ⟨heapExtends_take (filteredDataBestOddsH_extends crit favs hS base),
      filteredDataBestOddsH_ref_ge crit favs hS base⟩,
   rfl⟩


end Dashboard
